import Mathlib

/-!
Shallow embedding of the VA disability-ratings viewer (tkinter/pandas GUI).
The embedded functions keep the source's names where Lean allows it:
load_file, custom_default_sort (with its inner sort_key), apply_filters_and_search,
export_prompt and the export_* operations, together with the application state
fields (original_data, filtered_data, service_var, static_var, search_var).
-/

namespace VAParser

/-- JSON values as produced by json.load. Numeric leaves are restricted to the
integers that occur as rating percentages in this data set. -/
inductive Json where
  | null : Json
  | bool : Bool → Json
  | num : Int → Json
  | str : String → Json
  | arr : List Json → Json
  | obj : List (String × Json) → Json

/-- Association-list lookup backing dictionary subscription and dict.get. -/
def assocLookup : List (String × Json) → String → Option Json
  | [], _ => none
  | (k, v) :: rest, key => if k = key then some v else assocLookup rest key

/-- Dictionary access j[k] and j.get(k): some value only when j is an object
holding the key. On any other shape Python raises; each use site below
records how that exception is handled. -/
def Json.lookup (j : Json) (k : String) : Option Json :=
  match j with
  | Json.obj kvs => assocLookup kvs k
  | _ => none

def Json.isObj : Json → Bool
  | Json.obj _ => true
  | _ => false

def Json.asStr : Json → Option String
  | Json.str s => some s
  | _ => none

def Json.asInt : Json → Option Int
  | Json.num n => some n
  | _ => none

/-- One row of the DataFrame that load_file builds: the five displayed columns.
decision, condition and description hold the raw string or none when the key is
missing or not a string (Python keeps the raw value; only the canonical strings
are ever compared against, so non-strings behave like absent values here).
rating holds the raw integer, none standing for the NaN that fillna later
renders as the text N/A. static is already the display string produced by the
mapping in load_file: Yes for True, No for False, N/A otherwise. -/
structure Row where
  decision : Option String
  rating : Option Int
  condition : Option String
  description : Option String
  static : String
  deriving DecidableEq, Repr

/-- One record r of the individual_ratings list turned into a DataFrame row,
following the comprehension and the two column rewrites in load_file:
r.get of decision / rating_percentage / diagnostic_type_name / diagnostic_text /
static_ind, then Rating % gets fillna to N/A (modelled by the none case of
rating) and Static maps x is True to Yes, x is False to No, anything else
to N/A. -/
def normalize_record (r : Json) : Row :=
  { decision := (r.lookup "decision").bind Json.asStr
    rating := (r.lookup "rating_percentage").bind Json.asInt
    condition := (r.lookup "diagnostic_type_name").bind Json.asStr
    description := (r.lookup "diagnostic_text").bind Json.asStr
    static :=
      match r.lookup "static_ind" with
      | some (Json.bool true) => "Yes"
      | some (Json.bool false) => "No"
      | _ => "N/A" }

/-- Mutable fields of VAParserApp that the embedded operations read or write:
the three DataFrames and the three tk variables. -/
structure AppState where
  data : List Row
  original_data : List Row
  filtered_data : List Row
  service_var : String
  static_var : String
  search_var : String

/-- Nested extraction json_data[data][attributes][individual_ratings]
performed inside the try block of load_file; none when any step of the path is
missing (KeyError) or the intermediate value is not an object (TypeError) —
both land in the except branch. -/
def extract_ratings (doc : Json) : Option Json :=
  ((doc.lookup "data").bind (fun d => d.lookup "attributes")).bind
    (fun a => a.lookup "individual_ratings")

/-- Outcome of the load_file handler. malformed: the except branch ran (error
dialog, early return). crashed: the path existed but its value was not a
non-empty list of objects, so the code after the try block raises an uncaught
exception (iterating a non-list, r.get on a non-dict, or column access on the
empty DataFrame). loaded: the DataFrame was built and stored. -/
inductive LoadResult where
  | malformed
  | crashed
  | loaded
  deriving DecidableEq, Repr

/-- State transition of load_file for an already-parsed document. On the
malformed and crashed outcomes every stored field is left untouched; on
loaded the DataFrame is copied into data, original_data and filtered_data. -/
def load_file (doc : Json) (s : AppState) : AppState × LoadResult :=
  match extract_ratings doc with
  | none => (s, LoadResult.malformed)
  | some v =>
    match v with
    | Json.arr rs =>
      if rs.isEmpty || !(rs.all Json.isObj) then (s, LoadResult.crashed)
      else
        let df := rs.map normalize_record
        ({ s with data := df, original_data := df, filtered_data := df },
          LoadResult.loaded)
    | _ => (s, LoadResult.crashed)

/-- First component of sort_key in custom_default_sort:
0 if decision == "Service Connected" else 1. -/
def connPriority (r : Row) : Nat :=
  if r.decision = some "Service Connected" then 0 else 1

/-- Numeric rating used by sort_key: float(pct) when the cell is not the N/A
placeholder, -1 otherwise (ratings are integers, so Int is exact). -/
def pctVal (r : Row) : Int :=
  match r.rating with
  | some n => n
  | none => -1

/-- Tuple returned by sort_key: (service_conn_priority, -pct_val). -/
def sort_key (r : Row) : Nat × Int := (connPriority r, -(pctVal r))

/-- Ascending comparison of sort_key tuples, exactly Python's lexicographic
tuple order. -/
def keyLE (a b : Row) : Prop :=
  connPriority a < connPriority b ∨
    (connPriority a = connPriority b ∧ -(pctVal a) ≤ -(pctVal b))

instance : DecidableRel keyLE := fun a b =>
  inferInstanceAs (Decidable (connPriority a < connPriority b ∨
    (connPriority a = connPriority b ∧ -(pctVal a) ≤ -(pctVal b))))

instance : IsTrans Row keyLE :=
  ⟨by
    intro a b c hab hbc
    unfold keyLE at hab hbc ⊢
    omega⟩

instance : IsTotal Row keyLE :=
  ⟨by
    intro a b
    unfold keyLE
    omega⟩

/-- Ranking performed by custom_default_sort: sort_values on the sort_key
column, modelled as a stable comparison sort by the ascending tuple order (the
pandas call leaves the permutation of equal-key rows algorithm-dependent;
every statement below that evaluates this function does so on rows with
pairwise distinct keys, where all comparison sorts agree). -/
def custom_default_sort (rows : List Row) : List Row :=
  List.insertionSort keyLE rows

/-- Rows shown by display_data: ranked by custom_default_sort when the
default_sort flag is set, verbatim otherwise. -/
def display_data_rows (defaultSort : Bool) (df : List Row) : List Row :=
  if defaultSort then custom_default_sort df else df

/-- Python str.strip: drop leading and trailing whitespace (ASCII forms). -/
def pyStrip (s : String) : String :=
  ⟨((s.data.dropWhile Char.isWhitespace).reverse.dropWhile Char.isWhitespace).reverse⟩

/-- Python str.lower for the ASCII text handled here. -/
def pyLower (s : String) : String :=
  ⟨s.data.map Char.toLower⟩

def charsStartWith : List Char → List Char → Bool
  | [], _ => true
  | _ :: _, [] => false
  | n :: ns, h :: hs => n == h && charsStartWith ns hs

/-- Python substring membership needle in hay over character sequences. -/
def occursIn (needle hay : List Char) : Bool :=
  match hay with
  | [] => needle.isEmpty
  | _ :: t => charsStartWith needle hay || occursIn needle t

/-- Display text of an object cell: the stored string, or None for a missing
value, matching the pandas rendering of a None cell. -/
def fieldText : Option String → String
  | some s => s
  | none => "None"

/-- Display text of the Rating % cell after the fillna in load_file. -/
def ratingText (r : Row) : String :=
  match r.rating with
  | some n => toString n
  | none => "N/A"

/-- Text produced by str(row) inside the search lambda of
apply_filters_and_search: pandas renders the row Series as one label-value
line per column followed by the Name/dtype footer carrying the row's original
index. The alignment padding between label and value is modelled as a single
space, and cell values are rendered in full; no row or query considered below
contains a multi-space run or an over-long value, so this collapsing is
immaterial to every statement about rowStr in this file. -/
def rowStr (i : Nat) (r : Row) : String :=
  "Decision " ++ fieldText r.decision ++ "\n" ++
  "Rating % " ++ ratingText r ++ "\n" ++
  "Condition " ++ fieldText r.condition ++ "\n" ++
  "Description " ++ fieldText r.description ++ "\n" ++
  "Static " ++ r.static ++ "\n" ++
  "Name: " ++ toString i ++ ", dtype: object"

/-- Service-connection branch of apply_filters_and_search: equality filter on
the Decision column for the two non-All choices, no filtering otherwise.
Rows are paired with their original DataFrame index, which pandas keeps
through boolean filtering. -/
def svc_step (svc : String) (df : List (Nat × Row)) : List (Nat × Row) :=
  if svc = "Service Connected" then
    df.filter (fun p => decide (p.2.decision = some "Service Connected"))
  else if svc = "Not Service Connected" then
    df.filter (fun p => decide (p.2.decision = some "Not Service Connected"))
  else df

/-- Static branch of apply_filters_and_search: equality filter on the Static
display column for the two non-All choices, no filtering otherwise. -/
def static_step (st : String) (df : List (Nat × Row)) : List (Nat × Row) :=
  if st = "Static" then
    df.filter (fun p => decide (p.2.static = "Yes"))
  else if st = "Non-Static" then
    df.filter (fun p => decide (p.2.static = "No"))
  else df

/-- Search branch of apply_filters_and_search: the query is stripped and
lowercased once; when non-empty, a row survives exactly when that query occurs
in the lowercased str(row) text. -/
def search_step (q : String) (df : List (Nat × Row)) : List (Nat × Row) :=
  let query := pyLower (pyStrip q)
  if query = "" then df
  else df.filter (fun p => occursIn query.data (pyLower (rowStr p.1 p.2)).data)

/-- Filtering pipeline of apply_filters_and_search on a copy of
original_data: service filter, then static filter, then search. -/
def apply_filters_and_search (svc st q : String) (original : List Row) :
    List Row :=
  (search_step q (static_step st (svc_step svc original.enum))).map Prod.snd

/-- Handler body of apply_filters_and_search as a state transition: recompute
from original_data and the three tk variables, store the result in
filtered_data (display_data then shows it through display_data_rows true). -/
def applyStep (s : AppState) : AppState :=
  { s with
      filtered_data :=
        apply_filters_and_search s.service_var s.static_var s.search_var
          s.original_data }

/-- Row sequence written by export_csv: filtered_data via to_csv. -/
def export_csv_rows (s : AppState) : List Row := s.filtered_data

/-- Row sequence written by export_txt: filtered_data via tab-separated
to_csv. -/
def export_txt_rows (s : AppState) : List Row := s.filtered_data

/-- Row sequence written by export_md: filtered_data via to_markdown. -/
def export_md_rows (s : AppState) : List Row := s.filtered_data

/-- Row sequence written by export_xlsx: filtered_data via to_excel. -/
def export_xlsx_rows (s : AppState) : List Row := s.filtered_data

/-- Observable outcome of the export_prompt handler. noData: the empty-set
guard fired (info dialog only — the format dialog is never opened and no
export_* operation runs). cancelled: the format dialog returned no text.
invalidChoice: an unrecognized format number. The four export constructors
name the export_* operation that is invoked. -/
inductive ExportAction where
  | noData
  | cancelled
  | invalidChoice
  | exportCsv
  | exportTxt
  | exportMd
  | exportXlsx
  deriving DecidableEq, Repr

/-- Control flow of export_prompt. answer models the askstring dialog result:
none for a cancelled dialog, some text for an entry (the empty entry is falsy
in Python, hence also cancelled). The guard on filtered_data.empty comes
first and returns before the dialog is consulted. -/
def export_prompt (s : AppState) (answer : Option String) : ExportAction :=
  if s.filtered_data.isEmpty then ExportAction.noData
  else
    match answer with
    | none => ExportAction.cancelled
    | some raw =>
      if raw = "" then ExportAction.cancelled
      else
        let choice := pyStrip raw
        if choice = "1" then ExportAction.exportCsv
        else if choice = "2" then ExportAction.exportTxt
        else if choice = "3" then ExportAction.exportMd
        else if choice = "4" then ExportAction.exportXlsx
        else ExportAction.invalidChoice

/-- Filter tokens of the specified Filter Set Validator. -/
inductive FilterToken where
  | All
  | ServiceConnectedOnly
  | NotServiceConnectedOnly
  | StaticOnly
  | NonStaticOnly
  deriving DecidableEq, Repr

/-- Rejection reasons of the specified Filter Set Validator. -/
inductive RejectReason where
  | ConflictingConnectionFilters
  | ConflictingStaticFilters
  | AllCombinedWithOthers
  deriving DecidableEq, Repr

/-- Modelled from the spec: the source has no Filter Set Validator — filter
choice in setup_ui is two readonly comboboxes, each holding one value, so a
user-chosen token set never arises in the code. Following the spec (section
4.2): check the connection conflict, then the static conflict, then the
All-exclusivity rule, and report the first violation found; otherwise accept
the selection. The empty-set re-prompt rule is the caller's concern there and
is not part of this function. -/
def validate_filters (ts : List FilterToken) :
    Except RejectReason (List FilterToken) :=
  if FilterToken.ServiceConnectedOnly ∈ ts ∧
      FilterToken.NotServiceConnectedOnly ∈ ts then
    Except.error RejectReason.ConflictingConnectionFilters
  else if FilterToken.StaticOnly ∈ ts ∧ FilterToken.NonStaticOnly ∈ ts then
    Except.error RejectReason.ConflictingStaticFilters
  else if FilterToken.All ∈ ts ∧ ts.any (fun t => t ≠ FilterToken.All) then
    Except.error RejectReason.AllCombinedWithOthers
  else
    Except.ok ts

/-- Text the claim about search is phrased over: the concatenated textual
representation of the row's displayed field values (Decision, Rating %,
Condition, Description, Static), with no other text. Stated from the claim's
words for comparison with the source's rowStr. -/
def spec_displayed_fields_text (r : Row) : String :=
  fieldText r.decision ++ ratingText r ++ fieldText r.condition ++
    fieldText r.description ++ r.static

/-! Helper lemmas shared by the theorems below. -/

lemma connPriority_le_one (r : Row) : connPriority r ≤ 1 := by
  unfold connPriority
  split <;> omega

lemma connPriority_of_not_sc {r : Row}
    (h : r.decision ≠ some "Service Connected") : connPriority r = 1 := by
  unfold connPriority
  rw [if_neg h]

lemma connPriority_of_sc {r : Row}
    (h : r.decision = some "Service Connected") : connPriority r = 0 := by
  unfold connPriority
  rw [if_pos h]

lemma sorted_custom_default_sort (rows : List Row) :
    (custom_default_sort rows).Pairwise keyLE :=
  List.sorted_insertionSort keyLE rows

lemma perm_custom_default_sort (rows : List Row) :
    (custom_default_sort rows).Perm rows :=
  List.perm_insertionSort keyLE rows

lemma keyLE_group_mono {a b : Row} (h : keyLE a b)
    (ha : a.decision ≠ some "Service Connected") :
    b.decision ≠ some "Service Connected" := by
  intro hb
  have h1 : connPriority a = 1 := connPriority_of_not_sc ha
  have h2 : connPriority b = 0 := connPriority_of_sc hb
  unfold keyLE at h
  omega

lemma keyLE_rating_desc {a b : Row} (h : keyLE a b)
    (hg : connPriority a = connPriority b) : pctVal b ≤ pctVal a := by
  unfold keyLE at h
  omega

/-- C1: the claim's grouping is false on the code. The sort key gives group
rank 0 only to decision Service Connected; a row with decision Unknown lands
in group rank 1, tied with Not Service Connected rows, and a
Not Service Connected row with the larger rating sorts before it rather than
after all other rows. -/
theorem unknown_decision_grouped_with_nsc :
    connPriority
        { decision := some "Unknown", rating := some 10,
          condition := some "u", description := some "u", static := "N/A" } = 1 ∧
    custom_default_sort
        [{ decision := some "Unknown", rating := some 10,
           condition := some "u", description := some "u", static := "N/A" },
         { decision := some "Not Service Connected", rating := some 30,
           condition := some "n", description := some "n", static := "No" }] =
      [{ decision := some "Not Service Connected", rating := some 30,
         condition := some "n", description := some "n", static := "No" },
       { decision := some "Unknown", rating := some 10,
         condition := some "u", description := some "u", static := "N/A" }] := by
  decide

/-- C1 (amended): the first sort key places every row whose decision is
ServiceConnected before all other rows (group rank 0), while every row with
any other decision value — including NotServiceConnected and Unknown — is
placed in group rank 1: in the ranked output no row after a
non-ServiceConnected row is ServiceConnected. -/
theorem ranked_output_service_connected_first (rows : List Row) :
    (custom_default_sort rows).Pairwise
      (fun a b => a.decision ≠ some "Service Connected" →
        b.decision ≠ some "Service Connected") :=
  List.Pairwise.imp (fun hab => keyLE_group_mono hab)
    (sorted_custom_default_sort rows)

theorem ranked_output_service_connected_first_witness :
    (custom_default_sort
        [{ decision := some "Not Service Connected", rating := some 30,
           condition := some "n", description := some "n", static := "No" },
         { decision := some "Service Connected", rating := some 50,
           condition := some "s", description := some "s", static := "Yes" }]).Pairwise
      (fun a b => a.decision ≠ some "Service Connected" →
        b.decision ≠ some "Service Connected") :=
  ranked_output_service_connected_first _

/-- C2: the claim's treatment of an absent rating is false on the code. The
sort key maps an absent rating to -1, not 0, so a row with rating 0 and a row
with an absent rating have different keys, and the absent-rating row sorts
strictly after the rating-0 row instead of keeping its earlier input
position. -/
theorem absent_rating_key_differs_from_zero :
    sort_key { decision := some "Service Connected", rating := some 0,
               condition := some "z", description := some "z", static := "Yes" } ≠
      sort_key { decision := some "Service Connected", rating := none,
                 condition := some "a", description := some "a", static := "Yes" } ∧
    custom_default_sort
        [{ decision := some "Service Connected", rating := none,
           condition := some "a", description := some "a", static := "Yes" },
         { decision := some "Service Connected", rating := some 0,
           condition := some "z", description := some "z", static := "Yes" }] =
      [{ decision := some "Service Connected", rating := some 0,
         condition := some "z", description := some "z", static := "Yes" },
       { decision := some "Service Connected", rating := none,
         condition := some "a", description := some "a", static := "Yes" }] := by
  decide

/-- C2 (amended): within the same connection group the ranked output is
ordered by ratingPercent descending, where a row with an absent ratingPercent
is compared as if its value were -1 — strictly below every present rating,
including 0 — and the rows themselves are not rewritten: the output is a
permutation of the input carrying the original stored values. -/
theorem ranked_output_rating_descending (rows : List Row) :
    ((custom_default_sort rows).Pairwise
      (fun a b => connPriority a = connPriority b → pctVal b ≤ pctVal a)) ∧
    (custom_default_sort rows).Perm rows :=
  ⟨List.Pairwise.imp (fun hab hg => keyLE_rating_desc hab hg)
      (sorted_custom_default_sort rows),
    perm_custom_default_sort rows⟩

theorem ranked_output_rating_descending_witness :
    ((custom_default_sort
        [{ decision := some "Service Connected", rating := some 10,
           condition := some "a", description := some "a", static := "Yes" },
         { decision := some "Service Connected", rating := some 50,
           condition := some "b", description := some "b", static := "Yes" }]).Pairwise
      (fun a b => connPriority a = connPriority b → pctVal b ≤ pctVal a)) ∧
    (custom_default_sort
        [{ decision := some "Service Connected", rating := some 10,
           condition := some "a", description := some "a", static := "Yes" },
         { decision := some "Service Connected", rating := some 50,
           condition := some "b", description := some "b", static := "Yes" }]).Perm
      [{ decision := some "Service Connected", rating := some 10,
         condition := some "a", description := some "a", static := "Yes" },
       { decision := some "Service Connected", rating := some 50,
         condition := some "b", description := some "b", static := "Yes" }] :=
  ranked_output_rating_descending _

/-- Seventeen pairwise distinct rows that all carry one and the same sort_key:
the tie class on which the stability of the ranking is decided. -/
def tieRow (i : Nat) : Row :=
  { decision := some "Service Connected", rating := some 50,
    condition := some (toString i), description := some "d", static := "Yes" }

/-- C3: all seventeen rows of the tie class share a single sort_key while
being pairwise distinct rows, so their relative output order is decided
entirely by the tie behaviour of the sorting algorithm; the source sorts with
the pandas default, whose permutation of equal-key rows is not the input
order once a partition step runs. -/
theorem tie_class_shares_sort_key :
    (((List.range 17).map tieRow).Pairwise
      (fun a b => sort_key a = sort_key b)) ∧
    (((List.range 17).map tieRow).Pairwise (fun a b => a ≠ b)) := by
  decide

/-- Concrete filter-stage fixture: one Not Service Connected row ahead of one
Service Connected row, both filters All, blank query. -/
def row_nsc30 : Row :=
  { decision := some "Not Service Connected", rating := some 30,
    condition := some "n", description := some "n", static := "No" }

def row_sc50 : Row :=
  { decision := some "Service Connected", rating := some 50,
    condition := some "s", description := some "s", static := "Yes" }

def c4_state : AppState :=
  { data := [row_nsc30, row_sc50]
    original_data := [row_nsc30, row_sc50]
    filtered_data := [row_nsc30, row_sc50]
    service_var := "All"
    static_var := "All"
    search_var := "" }

/-- C4: the claim is false on the code. After a filter cycle the exports write
filtered_data, which holds the filtered rows in input order; the two-key
ranking of those rows is a different sequence, so every one of the four
export operations writes a sequence other than the ranked one. -/
theorem export_rows_not_ranked :
    export_csv_rows (applyStep c4_state) = [row_nsc30, row_sc50] ∧
    custom_default_sort ((applyStep c4_state).filtered_data) =
      [row_sc50, row_nsc30] ∧
    export_csv_rows (applyStep c4_state) ≠
      custom_default_sort ((applyStep c4_state).filtered_data) ∧
    export_txt_rows (applyStep c4_state) ≠
      custom_default_sort ((applyStep c4_state).filtered_data) ∧
    export_md_rows (applyStep c4_state) ≠
      custom_default_sort ((applyStep c4_state).filtered_data) ∧
    export_xlsx_rows (applyStep c4_state) ≠
      custom_default_sort ((applyStep c4_state).filtered_data) := by
  decide

/-- C4 (amended): for every filter selection and search query, the row
sequence written by each export operation (CSV, tab-separated text, Markdown,
XLSX) is the filtered row sequence in its filtered input order, exactly as
produced by the filter stage; the deterministic two-key ranking is applied
only when the table is displayed. -/
theorem export_rows_are_filtered_sequence (s : AppState) :
    export_csv_rows (applyStep s) =
      apply_filters_and_search s.service_var s.static_var s.search_var
        s.original_data ∧
    export_txt_rows (applyStep s) =
      apply_filters_and_search s.service_var s.static_var s.search_var
        s.original_data ∧
    export_md_rows (applyStep s) =
      apply_filters_and_search s.service_var s.static_var s.search_var
        s.original_data ∧
    export_xlsx_rows (applyStep s) =
      apply_filters_and_search s.service_var s.static_var s.search_var
        s.original_data ∧
    display_data_rows true ((applyStep s).filtered_data) =
      custom_default_sort
        (apply_filters_and_search s.service_var s.static_var s.search_var
          s.original_data) :=
  ⟨rfl, rfl, rfl, rfl, rfl⟩

theorem export_rows_are_filtered_sequence_witness :
    export_csv_rows (applyStep c4_state) =
      apply_filters_and_search c4_state.service_var c4_state.static_var
        c4_state.search_var c4_state.original_data ∧
    export_txt_rows (applyStep c4_state) =
      apply_filters_and_search c4_state.service_var c4_state.static_var
        c4_state.search_var c4_state.original_data ∧
    export_md_rows (applyStep c4_state) =
      apply_filters_and_search c4_state.service_var c4_state.static_var
        c4_state.search_var c4_state.original_data ∧
    export_xlsx_rows (applyStep c4_state) =
      apply_filters_and_search c4_state.service_var c4_state.static_var
        c4_state.search_var c4_state.original_data ∧
    display_data_rows true ((applyStep c4_state).filtered_data) =
      custom_default_sort
        (apply_filters_and_search c4_state.service_var c4_state.static_var
          c4_state.search_var c4_state.original_data) :=
  export_rows_are_filtered_sequence c4_state

def tinnitus_row : Row :=
  { decision := some "Service Connected", rating := some 10,
    condition := some "Tinnitus", description := some "Ringing",
    static := "Yes" }

/-- C5: the claim's characterization of a search match is false on the code.
The query dtype occurs in no displayed field value of the row, yet the row
survives the search, because the match runs over str(row), whose text also
contains the column labels and the Name/dtype footer. -/
theorem search_matches_text_outside_fields :
    apply_filters_and_search "All" "All" "dtype" [tinnitus_row] =
      [tinnitus_row] ∧
    occursIn (pyLower (pyStrip "dtype")).data
      (pyLower (spec_displayed_fields_text tinnitus_row)).data = false := by
  decide

lemma pyLower_eq_empty_iff (s : String) : pyLower s = "" ↔ s = "" := by
  constructor
  · intro h
    have h2 : s.data.map Char.toLower = ([] : List Char) :=
      congrArg String.data h
    have h3 : s.data = [] := List.map_eq_nil_iff.mp h2
    cases s
    simp_all
  · intro h
    subst h
    rfl

/-- C5 (amended): for every row set and every search query that is non-empty
after trimming whitespace, a row survives the search predicate if and only if
the stripped, lowercased query occurs as a substring of the lowercased
str(row) rendering of that row — a text consisting of the displayed field
values together with the column labels, the row's index label and a dtype
marker, any of which can produce a match — and this predicate is applied as
an additional AND after categorical filtering. -/
theorem search_filters_by_row_rendering (svc st q : String) (rows : List Row)
    (hq : pyStrip q ≠ "") :
    apply_filters_and_search svc st q rows =
      ((static_step st (svc_step svc rows.enum)).filter
        (fun p => occursIn (pyLower (pyStrip q)).data
          (pyLower (rowStr p.1 p.2)).data)).map Prod.snd := by
  have hne : pyLower (pyStrip q) ≠ "" := fun hc =>
    hq ((pyLower_eq_empty_iff _).mp hc)
  simp only [apply_filters_and_search, search_step]
  rw [if_neg hne]

theorem search_filters_by_row_rendering_witness :
    pyStrip "dtype" ≠ "" ∧
    apply_filters_and_search "All" "All" "dtype" [tinnitus_row] =
      ((static_step "All" (svc_step "All" ([tinnitus_row]).enum)).filter
        (fun p => occursIn (pyLower (pyStrip "dtype")).data
          (pyLower (rowStr p.1 p.2)).data)).map Prod.snd :=
  ⟨by decide,
    search_filters_by_row_rendering "All" "All" "dtype" [tinnitus_row]
      (by decide)⟩

/-- C6: with both categorical filters at All and a query that is empty after
stripping, the filter stage is the identity: every row — including rows whose
static indicator is the absent marker N/A — survives, in input order. -/
theorem all_filters_blank_query_identity (rows : List Row) (q : String)
    (hq : pyStrip q = "") :
    apply_filters_and_search "All" "All" q rows = rows := by
  unfold apply_filters_and_search svc_step static_step search_step
  rw [hq]
  rw [if_pos (show pyLower "" = "" from rfl)]
  exact List.enum_map_snd rows

theorem all_filters_blank_query_identity_witness :
    pyStrip " " = "" ∧
    apply_filters_and_search "All" "All" " "
        [{ decision := some "Unknown", rating := none,
           condition := some "c", description := some "d", static := "N/A" }] =
      [{ decision := some "Unknown", rating := none,
         condition := some "c", description := some "d", static := "N/A" }] :=
  ⟨by decide, all_filters_blank_query_identity _ " " (by decide)⟩

/-- C7: the modelled Filter Set Validator returns an accepted selection or a
rejection carrying exactly one of the three reasons (the result type admits no
other outcome), checks the connection conflict, then the static conflict, then
the All-exclusivity rule, reporting only the first violation found, and
decides the four selections named by the claim as stated. -/
theorem filter_validator_first_violation :
    (validate_filters
        [FilterToken.ServiceConnectedOnly, FilterToken.NotServiceConnectedOnly] =
      Except.error RejectReason.ConflictingConnectionFilters) ∧
    (validate_filters [FilterToken.StaticOnly, FilterToken.NonStaticOnly] =
      Except.error RejectReason.ConflictingStaticFilters) ∧
    (validate_filters [FilterToken.All, FilterToken.ServiceConnectedOnly] =
      Except.error RejectReason.AllCombinedWithOthers) ∧
    (validate_filters [FilterToken.ServiceConnectedOnly, FilterToken.StaticOnly] =
      Except.ok [FilterToken.ServiceConnectedOnly, FilterToken.StaticOnly]) ∧
    (∀ ts : List FilterToken, FilterToken.ServiceConnectedOnly ∈ ts →
      FilterToken.NotServiceConnectedOnly ∈ ts →
      validate_filters ts =
        Except.error RejectReason.ConflictingConnectionFilters) ∧
    (∀ ts : List FilterToken,
      ¬(FilterToken.ServiceConnectedOnly ∈ ts ∧
          FilterToken.NotServiceConnectedOnly ∈ ts) →
      FilterToken.StaticOnly ∈ ts → FilterToken.NonStaticOnly ∈ ts →
      validate_filters ts =
        Except.error RejectReason.ConflictingStaticFilters) ∧
    (∀ ts : List FilterToken,
      ¬(FilterToken.ServiceConnectedOnly ∈ ts ∧
          FilterToken.NotServiceConnectedOnly ∈ ts) →
      ¬(FilterToken.StaticOnly ∈ ts ∧ FilterToken.NonStaticOnly ∈ ts) →
      FilterToken.All ∈ ts → (∃ t ∈ ts, t ≠ FilterToken.All) →
      validate_filters ts =
        Except.error RejectReason.AllCombinedWithOthers) ∧
    (∀ ts : List FilterToken,
      ¬(FilterToken.ServiceConnectedOnly ∈ ts ∧
          FilterToken.NotServiceConnectedOnly ∈ ts) →
      ¬(FilterToken.StaticOnly ∈ ts ∧ FilterToken.NonStaticOnly ∈ ts) →
      ¬(FilterToken.All ∈ ts ∧ ∃ t ∈ ts, t ≠ FilterToken.All) →
      validate_filters ts = Except.ok ts) := by
  refine ⟨rfl, rfl, rfl, rfl, ?_, ?_, ?_, ?_⟩
  · intro ts h1 h2
    unfold validate_filters
    rw [if_pos ⟨h1, h2⟩]
  · intro ts hc h1 h2
    unfold validate_filters
    rw [if_neg hc, if_pos ⟨h1, h2⟩]
  · intro ts hc hs hAll hex
    have hand : FilterToken.All ∈ ts ∧
        ts.any (fun t => decide (t ≠ FilterToken.All)) = true :=
      ⟨hAll, by simpa using hex⟩
    unfold validate_filters
    rw [if_neg hc, if_neg hs, if_pos hand]
  · intro ts hc hs hno
    have hand : ¬(FilterToken.All ∈ ts ∧
        ts.any (fun t => decide (t ≠ FilterToken.All)) = true) := by
      intro hcontra
      exact hno ⟨hcontra.1, by simpa using hcontra.2⟩
    unfold validate_filters
    rw [if_neg hc, if_neg hs, if_neg hand]

theorem filter_validator_first_violation_witness :
    validate_filters
        [FilterToken.ServiceConnectedOnly, FilterToken.All,
          FilterToken.NotServiceConnectedOnly] =
      Except.error RejectReason.ConflictingConnectionFilters :=
  filter_validator_first_violation.2.2.2.2.1 _ (by decide) (by decide)

/-- C8: when the nested path data, attributes, individual_ratings is missing
from the parsed document, load_file reports the fatal malformed-source
condition and returns with every stored field — in particular the previously
loaded data — unchanged, so the document is neither displayed nor exported
and is not treated as holding zero records. -/
theorem malformed_source_is_fatal_and_preserves_state (doc : Json)
    (s : AppState) (h : extract_ratings doc = none) :
    load_file doc s = (s, LoadResult.malformed) := by
  unfold load_file
  rw [h]

def c8_doc : Json :=
  Json.obj [("data", Json.obj [("attributes", Json.obj [])])]

def c8_state : AppState :=
  { data := [row_sc50]
    original_data := [row_sc50]
    filtered_data := [row_sc50]
    service_var := "All"
    static_var := "All"
    search_var := "" }

theorem malformed_source_is_fatal_and_preserves_state_witness :
    load_file c8_doc c8_state = (c8_state, LoadResult.malformed) :=
  malformed_source_is_fatal_and_preserves_state c8_doc c8_state rfl

/-- C9: the filter cycle recomputes from original_data and the three control
variables only: two states that agree on original_data, service_var,
static_var and search_var produce identical filtered_data after the cycle,
whatever filtered subsets either state carried before. -/
theorem evaluation_depends_only_on_original_and_controls (s1 s2 : AppState)
    (ho : s1.original_data = s2.original_data)
    (hsvc : s1.service_var = s2.service_var)
    (hst : s1.static_var = s2.static_var)
    (hq : s1.search_var = s2.search_var) :
    (applyStep s1).filtered_data = (applyStep s2).filtered_data := by
  simp only [applyStep]
  rw [ho, hsvc, hst, hq]

def c9_state_a : AppState :=
  { data := []
    original_data := [row_nsc30, row_sc50]
    filtered_data := []
    service_var := "All"
    static_var := "All"
    search_var := "" }

def c9_state_b : AppState :=
  { data := [row_sc50]
    original_data := [row_nsc30, row_sc50]
    filtered_data := [row_sc50]
    service_var := "All"
    static_var := "All"
    search_var := "" }

theorem evaluation_depends_only_on_original_and_controls_witness :
    (applyStep c9_state_a).filtered_data =
      (applyStep c9_state_b).filtered_data :=
  evaluation_depends_only_on_original_and_controls c9_state_a c9_state_b
    rfl rfl rfl rfl

lemma export_prompt_of_empty (s : AppState) (a : Option String)
    (h : s.filtered_data = []) : export_prompt s a = ExportAction.noData := by
  unfold export_prompt
  rw [h]
  rfl

/-- C10: with an empty filtered row set, export_prompt answers with the
no-data notice whatever the format dialog would have returned — the dialog is
never consulted, no destination is opened and no export operation runs — and
conversely any run that reaches one of the four export operations came from a
non-empty filtered row set. -/
theorem empty_rows_export_refused :
    (∀ (s : AppState) (answer : Option String), s.filtered_data = [] →
      export_prompt s answer = ExportAction.noData) ∧
    (∀ (s : AppState) (answer : Option String),
      (export_prompt s answer = ExportAction.exportCsv ∨
        export_prompt s answer = ExportAction.exportTxt ∨
        export_prompt s answer = ExportAction.exportMd ∨
        export_prompt s answer = ExportAction.exportXlsx) →
      s.filtered_data ≠ []) := by
  constructor
  · exact export_prompt_of_empty
  · intro s a hex hempty
    rw [export_prompt_of_empty s a hempty] at hex
    rcases hex with h | h | h | h <;> exact ExportAction.noConfusion h

def c10_state : AppState :=
  { data := [row_sc50]
    original_data := [row_sc50]
    filtered_data := []
    service_var := "All"
    static_var := "All"
    search_var := "" }

theorem empty_rows_export_refused_witness :
    export_prompt c10_state (some "1") = ExportAction.noData :=
  empty_rows_export_refused.1 c10_state (some "1") rfl

end VAParser
